import Mathlib

/-!
Verification of the streaming session relay in
`src/routes/v1/endpoints.py` (FastAPI websocket chat relay).

The embedding below translates the Python source into Lean:
* `Message`, `ChatSession` mirror the pydantic models;
* Python dicts (`chat_sessions`, `ConnectionManager.active_connections`)
  are association lists with dict-assignment / `del` / lookup semantics;
* the completion gateway (`get_ai_response`, `stream_ai_response`) is
  modelled through an oracle describing what the external provider does
  for one request: the atomic call either returns a text or raises (an
  exception carrying a message string), the streaming call emits a list
  of provider chunks and then either completes or raises;
* the body of the websocket `while True:` loop (lines 65-157) becomes
  `handleFrame`, one inbound frame to (new store, outbound frames);
* the loop itself becomes `runLoop` over a list of events, stopping at
  a transport disconnect, and `websocket_endpoint` adds the connect
  and teardown (`manager.disconnect`) around it.

The endpoint creates the client's session before entering the loop
(lines 61-62), so the per-frame handler always finds it; theorems about
the handler carry that invariant as a hypothesis.
-/

namespace Endpoints

/-- `Message(BaseModel)`: role ("user" / "assistant") and content. -/
structure Message where
  role : String
  content : String
deriving DecidableEq, Repr

/-- `ChatSession(BaseModel)`: client id and ordered message list. -/
structure ChatSession where
  id : String
  messages : List Message
deriving DecidableEq, Repr

/-- Association-list model of a Python `Dict[str, α]`. -/
def dictLookup {α : Type} : List (String × α) → String → Option α
  | [], _ => none
  | (k, v) :: rest, key => if k = key then some v else dictLookup rest key

/-- Python dict assignment `d[key] = v` (replaces an existing entry). -/
def dictSet {α : Type} : List (String × α) → String → α → List (String × α)
  | [], key, v => [(key, v)]
  | (k, w) :: rest, key, v =>
    if k = key then (key, v) :: rest else (k, w) :: dictSet rest key v

/-- Python `del d[key]` guarded by `if key in d` (no-op when absent). -/
def dictErase {α : Type} : List (String × α) → String → List (String × α)
  | [], _ => []
  | (k, w) :: rest, key =>
    if k = key then dictErase rest key else (k, w) :: dictErase rest key

/-- `chat_sessions: Dict[str, ChatSession]`. -/
abbrev SessionStore := List (String × ChatSession)

/-- `ConnectionManager.active_connections: Dict[str, WebSocket]`;
channel handles are abstracted as naturals. -/
abbrev Registry := List (String × Nat)

theorem dictLookup_set_self {α : Type} (d : List (String × α)) (key : String) (v : α) :
    dictLookup (dictSet d key v) key = some v := by
  induction d with
  | nil => simp [dictSet, dictLookup]
  | cons hd tl ih =>
    obtain ⟨k, w⟩ := hd
    by_cases h : k = key <;> simp [dictSet, dictLookup, h, ih]

theorem dictLookup_set_ne {α : Type} (d : List (String × α)) (key other : String) (v : α)
    (h : other ≠ key) : dictLookup (dictSet d key v) other = dictLookup d other := by
  induction d with
  | nil => simp [dictSet, dictLookup, Ne.symm h]
  | cons hd tl ih =>
    obtain ⟨k, w⟩ := hd
    by_cases hk : k = key
    · subst hk
      simp [dictSet, dictLookup, Ne.symm h]
    · simp only [dictSet, if_neg hk, dictLookup]
      by_cases hko : k = other <;> simp [hko, ih]

theorem dictLookup_erase_self {α : Type} (d : List (String × α)) (key : String) :
    dictLookup (dictErase d key) key = none := by
  induction d with
  | nil => simp [dictErase, dictLookup]
  | cons hd tl ih =>
    obtain ⟨k, w⟩ := hd
    by_cases h : k = key <;> simp [dictErase, dictLookup, h, ih]

theorem dictLookup_erase_ne {α : Type} (d : List (String × α)) (key other : String)
    (h : other ≠ key) : dictLookup (dictErase d key) other = dictLookup d other := by
  induction d with
  | nil => simp [dictErase]
  | cons hd tl ih =>
    obtain ⟨k, w⟩ := hd
    by_cases hk : k = key
    · subst hk
      simp [dictErase, dictLookup, Ne.symm h, ih]
    · simp only [dictErase, if_neg hk, dictLookup]
      by_cases hko : k = other <;> simp [hko, ih]

theorem dictErase_idem {α : Type} (d : List (String × α)) (key : String) :
    dictErase (dictErase d key) key = dictErase d key := by
  induction d with
  | nil => rfl
  | cons hd tl ih =>
    obtain ⟨k, w⟩ := hd
    by_cases h : k = key <;> simp [dictErase, h, ih]

/-! ## Sentiment estimator (`estimate_sentiment`, source lines 206-240) -/

/-- The fixed positive term set of `estimate_sentiment`. -/
def positive_words : List String :=
  ["happy", "good", "great", "excellent", "positive", "wonderful", "amazing", "love"]

/-- The fixed negative term set of `estimate_sentiment`. -/
def negative_words : List String :=
  ["sad", "bad", "terrible", "poor", "negative", "awful", "hate"]

/-- Python `text.lower()`: character-wise lowercasing (as in
`String.toLower`, i.e. `String.map Char.toLower`), written on the
character list so that it evaluates by kernel reduction. -/
def lower (s : String) : String :=
  ⟨s.data.map Char.toLower⟩

/-- Python `word in text` on strings: substring containment. -/
def containsSubstr (text pat : String) : Bool :=
  decide (pat.data <:+: text.data)

/-- `sum(1 for word in positive_words if word in text)`. -/
def positive_count (text : String) : Nat :=
  (positive_words.filter (fun w => containsSubstr text w)).length

/-- `sum(1 for word in negative_words if word in text)`. -/
def negative_count (text : String) : Nat :=
  (negative_words.filter (fun w => containsSubstr text w)).length

/-- `estimate_sentiment` (source lines 206-240): lowercase, count the two
term sets by substring containment, compare. -/
def estimate_sentiment (text : String) : String :=
  let t := lower text
  if positive_count t > negative_count t then "positive"
  else if negative_count t > positive_count t then "negative"
  else "neutral"

/-! ## Completion gateway (`get_ai_response`, `stream_ai_response`) -/

/-- One streamed provider chunk's `choices[0].delta`: `content` may be
absent (Python `None`). -/
structure Delta where
  content : Option String
deriving DecidableEq, Repr

/-- One choice of a streamed provider chunk. -/
structure Choice where
  delta : Delta
deriving DecidableEq, Repr

/-- One chunk of the provider's incremental stream. -/
structure Chunk where
  choices : List Choice
deriving DecidableEq, Repr

/-- The guard of `stream_ai_response` (line 199): yield
`chunk.choices[0].delta.content` when `chunk.choices` is non-empty and
the content `is not None`. -/
def chunkFragment (c : Chunk) : Option String :=
  match c.choices with
  | [] => none
  | ch :: _ => ch.delta.content

/-- `stream_ai_response` (lines 184-203) on a provider chunk sequence:
the fragments it yields, in emission order. -/
def stream_ai_response (chunks : List Chunk) : List String :=
  chunks.filterMap chunkFragment

/-- What the external provider does for one request: the atomic call
(`get_ai_response`) returns a text or raises with a message; the
streaming call emits `streamChunks` and then either completes
(`streamFault = none`) or raises mid-stream with a message. -/
structure GatewayOracle where
  atomicResult : Except String String
  streamChunks : List Chunk
  streamFault : Option String
deriving Repr

/-! ## Frames -/

/-- Inbound websocket frame, after `json.loads` and the `type` dispatch
(`message` with defaulted `content` / `stream`, `feedback`, or any
other type, which the loop silently ignores). -/
inductive InFrame where
  | message (content : String) (stream : Bool)
  | feedback (message_id : String) (rating : String)
  | other
deriving DecidableEq, Repr

/-- `metadata` of outbound `message` / `stream_complete` frames.
`response_time` is wall-clock seconds in the source; it is abstracted
as an opaque tick value. -/
structure Metadata where
  response_time : Nat
  length : Nat
  sentiment : String
deriving DecidableEq, Repr

/-- Outbound websocket frames (the JSON shapes sent by the loop). -/
inductive OutFrame where
  | message (content : String) (meta : Metadata)
  | stream (content : String)
  | stream_complete (meta : Metadata)
  | error (content : String)
  | feedback_received
deriving DecidableEq, Repr

/-- Contents of the `stream` frames of an outbound sequence, in order. -/
def streamContents : List OutFrame → List String
  | [] => []
  | OutFrame.stream c :: rest => c :: streamContents rest
  | _ :: rest => streamContents rest

/-- Discriminator for `error` frames. -/
def isErrorFrame : OutFrame → Bool
  | OutFrame.error _ => true
  | _ => false

/-! ## Session relay engine (websocket loop body, lines 65-157) -/

/-- `chat_sessions[client_id].messages.append(m)`. The endpoint ensures
the session exists before the loop (lines 61-62); an absent key would
raise in Python and close the connection, a path the loop-body model
does not take (theorems hypothesize the session's presence). -/
def appendMsg (store : SessionStore) (client_id : String) (m : Message) : SessionStore :=
  match dictLookup store client_id with
  | some s => dictSet store client_id ⟨s.id, s.messages ++ [m]⟩
  | none => store

/-- The body of the `while True:` loop for one inbound frame
(lines 70-157): returns the updated session store and the outbound
frames sent to this client, in order. `rt` is the measured elapsed
time for the request. -/
def handleFrame (store : SessionStore) (client_id : String) (f : InFrame)
    (gw : GatewayOracle) (rt : Nat) : SessionStore × List OutFrame :=
  match f with
  | InFrame.message content streamFlag =>
    let store1 := appendMsg store client_id ⟨"user", content⟩
    if !streamFlag then
      match gw.atomicResult with
      | Except.ok response =>
        let store2 := appendMsg store1 client_id ⟨"assistant", response⟩
        (store2,
         [OutFrame.message response
            ⟨rt, response.length, estimate_sentiment response⟩])
      | Except.error e => (store1, [OutFrame.error ("Error: " ++ e)])
    else
      let fragments := stream_ai_response gw.streamChunks
      let sent := fragments.map OutFrame.stream
      let complete_response := fragments.foldl (fun acc c => acc ++ c) ""
      match gw.streamFault with
      | none =>
        let store2 := appendMsg store1 client_id ⟨"assistant", complete_response⟩
        (store2,
         sent ++ [OutFrame.stream_complete
            ⟨rt, complete_response.length, estimate_sentiment complete_response⟩])
      | some e => (store1, sent ++ [OutFrame.error ("Error: " ++ e)])
  | InFrame.feedback _ _ => (store, [OutFrame.feedback_received])
  | InFrame.other => (store, [])

/-- One occurrence of the loop's suspension point: either an inbound
frame arrives (with the provider's behavior for it and the measured
elapsed time), or the transport disconnects. -/
inductive Event where
  | recv (f : InFrame) (gw : GatewayOracle) (rt : Nat)
  | disconnect
deriving Repr

/-- The `while True:` loop (lines 65-157) over a sequence of events:
processes frames until the transport disconnects (or the event supply
ends), accumulating outbound frames. -/
def runLoop (store : SessionStore) (client_id : String) :
    List Event → SessionStore × List OutFrame
  | [] => (store, [])
  | Event.disconnect :: _ => (store, [])
  | Event.recv f gw rt :: rest =>
    let step := handleFrame store client_id f gw rt
    let k := runLoop step.1 client_id rest
    (k.1, step.2 ++ k.2)

/-- `ConnectionManager.disconnect` (lines 22-24). -/
def disconnect (reg : Registry) (client_id : String) : Registry :=
  dictErase reg client_id

/-- Entry into the terminal Closed state (lines 159-163): both except
handlers only unregister the connection; the session store is not
touched. -/
def onClosed (reg : Registry) (store : SessionStore) (client_id : String) :
    Registry × SessionStore :=
  (disconnect reg client_id, store)

/-- `websocket_endpoint` (lines 56-163) end to end: register the
connection, lazily create the session, run the loop, then tear down
(`manager.disconnect`) when the loop exits via either except handler. -/
def websocket_endpoint (reg : Registry) (store : SessionStore) (ws : Nat)
    (client_id : String) (events : List Event) :
    Registry × SessionStore × List OutFrame :=
  let reg1 := dictSet reg client_id ws
  let store1 :=
    match dictLookup store client_id with
    | some _ => store
    | none => dictSet store client_id ⟨client_id, []⟩
  let r := runLoop store1 client_id events
  ((onClosed reg1 r.1 client_id).1, r.1, r.2)

/-! ## Broadcast (`ConnectionManager.broadcast`, lines 30-32) -/

/-- A registered connection as seen by `broadcast`: its client id and
whether its `send_text` succeeds. -/
structure Conn where
  id : String
  sendOk : Bool
deriving DecidableEq, Repr

/-- `broadcast` (lines 30-32): a bare `for` loop over the registered
connections awaiting `send_text` on each. Returns the deliveries that
happened, in order, and the id of the first connection whose send
raised (the exception propagates out of the loop, aborting it). -/
def broadcast : List Conn → String → List (String × String) × Option String
  | [], _ => ([], none)
  | c :: rest, msg =>
    if c.sendOk then
      let k := broadcast rest msg
      ((c.id, msg) :: k.1, k.2)
    else
      ([], some c.id)

/-! ## History access (lines 243-258) -/

/-- `get_chat_history` (lines 243-249): 404 with detail
"Chat session not found" when absent, else the stored session. -/
def get_chat_history (store : SessionStore) (client_id : String) :
    Except (Nat × String) ChatSession :=
  match dictLookup store client_id with
  | none => Except.error (404, "Chat session not found")
  | some s => Except.ok s

/-- `delete_chat_session` (lines 252-258): guarded delete, then always
the success acknowledgment (status, message). -/
def delete_chat_session (store : SessionStore) (client_id : String) :
    SessionStore × (String × String) :=
  (dictErase store client_id, ("success", "Chat session deleted"))

/-! ## Helper lemmas -/

theorem dictSet_dictSet {α : Type} (d : List (String × α)) (key : String) (v w : α) :
    dictSet (dictSet d key v) key w = dictSet d key w := by
  induction d with
  | nil => simp [dictSet]
  | cons hd tl ih =>
    obtain ⟨k, u⟩ := hd
    by_cases h : k = key <;> simp [dictSet, h, ih]

theorem appendMsg_eq (store : SessionStore) (client_id : String) (s : ChatSession)
    (m : Message) (hs : dictLookup store client_id = some s) :
    appendMsg store client_id m = dictSet store client_id ⟨s.id, s.messages ++ [m]⟩ := by
  simp [appendMsg, hs]

theorem appendMsg_appendMsg (store : SessionStore) (client_id : String) (s : ChatSession)
    (m1 m2 : Message) (hs : dictLookup store client_id = some s) :
    appendMsg (appendMsg store client_id m1) client_id m2
      = dictSet store client_id ⟨s.id, s.messages ++ [m1, m2]⟩ := by
  rw [appendMsg_eq store client_id s m1 hs]
  rw [show appendMsg (dictSet store client_id ⟨s.id, s.messages ++ [m1]⟩) client_id m2
      = dictSet (dictSet store client_id ⟨s.id, s.messages ++ [m1]⟩) client_id
          ⟨s.id, (s.messages ++ [m1]) ++ [m2]⟩ from
    appendMsg_eq _ client_id ⟨s.id, s.messages ++ [m1]⟩ m2
      (dictLookup_set_self store client_id _)]
  rw [dictSet_dictSet]
  simp

theorem streamContents_map_stream (l : List String) (rest : List OutFrame) :
    streamContents (l.map OutFrame.stream ++ rest) = l ++ streamContents rest := by
  induction l with
  | nil => rfl
  | cons a t ih => simp [streamContents, ih]

theorem filter_isErrorFrame_map_stream (l : List String) (rest : List OutFrame) :
    ((l.map OutFrame.stream ++ rest).filter isErrorFrame) = rest.filter isErrorFrame := by
  induction l with
  | nil => rfl
  | cons a t ih => simp [isErrorFrame, ih]

/-! ## Claim theorems -/

/-- C6: `estimate_sentiment` lowercases its input, counts the fixed
positive and negative term sets by substring containment, and returns
"positive" when the positive count exceeds the negative count,
"negative" when the negative count exceeds the positive count, and
"neutral" otherwise; the four concrete evaluations of the spec hold. -/
theorem estimate_sentiment_spec :
    (∀ text : String,
      (estimate_sentiment text = "positive" ↔
        positive_count (lower text) > negative_count (lower text))
      ∧ (estimate_sentiment text = "negative" ↔
        negative_count (lower text) > positive_count (lower text))
      ∧ (estimate_sentiment text = "neutral" ↔
        positive_count (lower text) = negative_count (lower text)))
    ∧ estimate_sentiment "I love this, it is wonderful" = "positive"
    ∧ estimate_sentiment "this is terrible and awful" = "negative"
    ∧ estimate_sentiment "the sky is blue" = "neutral"
    ∧ estimate_sentiment "LOVE" = "positive" := by
  refine ⟨?_, by decide, by decide, by decide, by decide⟩
  intro text
  have e0 : estimate_sentiment text =
      (if positive_count (lower text) > negative_count (lower text) then "positive"
       else if negative_count (lower text) > positive_count (lower text) then "negative"
       else "neutral") := rfl
  rcases Nat.lt_trichotomy (positive_count (lower text)) (negative_count (lower text))
    with h | h | h
  · have e1 : estimate_sentiment text = "negative" := by
      rw [e0, if_neg (by omega), if_pos (by omega)]
    rw [e1]
    exact ⟨⟨fun hx => absurd hx (by decide), fun hx => absurd hx (by omega)⟩,
           ⟨fun _ => by omega, fun _ => rfl⟩,
           ⟨fun hx => absurd hx (by decide), fun hx => absurd hx (by omega)⟩⟩
  · have e1 : estimate_sentiment text = "neutral" := by
      rw [e0, if_neg (by omega), if_neg (by omega)]
    rw [e1]
    exact ⟨⟨fun hx => absurd hx (by decide), fun hx => absurd hx (by omega)⟩,
           ⟨fun hx => absurd hx (by decide), fun hx => absurd hx (by omega)⟩,
           ⟨fun _ => by omega, fun _ => rfl⟩⟩
  · have e1 : estimate_sentiment text = "positive" := by
      rw [e0, if_pos (by omega)]
    rw [e1]
    exact ⟨⟨fun _ => by omega, fun _ => rfl⟩,
           ⟨fun hx => absurd hx (by decide), fun hx => absurd hx (by omega)⟩,
           ⟨fun hx => absurd hx (by decide), fun hx => absurd hx (by omega)⟩⟩

/-- C7: `get_chat_history` fails with 404 "Chat session not found"
exactly when no session is stored for the client id, and otherwise
returns the stored `ChatSession` unchanged. -/
theorem get_chat_history_spec (store : SessionStore) (client_id : String) :
    (get_chat_history store client_id = Except.error (404, "Chat session not found")
      ↔ dictLookup store client_id = none)
    ∧ (∀ s : ChatSession, dictLookup store client_id = some s →
        get_chat_history store client_id = Except.ok s) := by
  constructor
  · cases h : dictLookup store client_id <;> simp [get_chat_history, h]
  · intro s hs
    simp [get_chat_history, hs]

/-- C7 witness: a never-seen id yields the 404, and a stored session is
returned as stored. -/
theorem get_chat_history_spec_witness :
    get_chat_history [("a", ChatSession.mk "a" [])] "a"
      = Except.ok (ChatSession.mk "a" [])
    ∧ get_chat_history ([] : SessionStore) "a"
      = Except.error (404, "Chat session not found") := by
  refine ⟨(get_chat_history_spec [("a", ChatSession.mk "a" [])] "a").2
      (ChatSession.mk "a" []) (by decide), ?_⟩
  exact (get_chat_history_spec ([] : SessionStore) "a").1.mpr rfl

/-- C8: `delete_chat_session` always returns the same success
acknowledgment, afterwards no session exists for the id, and a second
call returns the same acknowledgment on the unchanged store. -/
theorem delete_chat_session_spec (store : SessionStore) (client_id : String) :
    (delete_chat_session store client_id).2 = ("success", "Chat session deleted")
    ∧ dictLookup (delete_chat_session store client_id).1 client_id = none
    ∧ delete_chat_session (delete_chat_session store client_id).1 client_id
      = ((delete_chat_session store client_id).1, ("success", "Chat session deleted")) := by
  refine ⟨rfl, dictLookup_erase_self store client_id, ?_⟩
  simp [delete_chat_session, dictErase_idem]

/-- C9: entering the Closed state removes the connection's registry
entry, leaves every other registry entry in place, and leaves the
session store untouched. -/
theorem closed_frame_effect (reg : Registry) (store : SessionStore) (client_id : String) :
    dictLookup (onClosed reg store client_id).1 client_id = none
    ∧ (onClosed reg store client_id).2 = store
    ∧ ∀ other : String, other ≠ client_id →
        dictLookup (onClosed reg store client_id).1 other = dictLookup reg other := by
  exact ⟨dictLookup_erase_self reg client_id, rfl,
         fun other ho => dictLookup_erase_ne reg client_id other ho⟩

/-- C9 witness: closing "a" keeps "b" registered and the store intact. -/
theorem closed_frame_effect_witness :
    dictLookup (onClosed [("a", 1), ("b", 2)] [("a", ChatSession.mk "a" [])] "a").1 "b"
      = some 2
    ∧ (onClosed [("a", 1), ("b", 2)] [("a", ChatSession.mk "a" [])] "a").2
      = [("a", ChatSession.mk "a" [])] := by
  have h := closed_frame_effect [("a", 1), ("b", 2)] [("a", ChatSession.mk "a" [])] "a"
  refine ⟨?_, h.2.1⟩
  rw [h.2.2 "b" (by decide)]
  decide

/-- C2: for a non-streaming message frame whose gateway call succeeds,
the handler appends the user message and one assistant message with the
gateway result to the client's session and sends exactly one `message`
frame carrying the result, its character count, and its sentiment; in
the spec's concrete scenario (client "abc", input "hello", gateway
result "hi there") the frame has content "hi there", length 8,
sentiment "neutral", and the session holds exactly the two messages. -/
theorem nonstreaming_message_spec :
    (∀ (store : SessionStore) (s : ChatSession) (client_id content response : String)
        (gw : GatewayOracle) (rt : Nat),
      dictLookup store client_id = some s →
      gw.atomicResult = Except.ok response →
      handleFrame store client_id (InFrame.message content false) gw rt
        = (dictSet store client_id
             ⟨s.id, s.messages ++ [⟨"user", content⟩, ⟨"assistant", response⟩]⟩,
           [OutFrame.message response ⟨rt, response.length, estimate_sentiment response⟩]))
    ∧ websocket_endpoint [] [] 7 "abc"
        [Event.recv (InFrame.message "hello" false) ⟨Except.ok "hi there", [], none⟩ 0,
         Event.disconnect]
      = ([], [("abc", ⟨"abc", [⟨"user", "hello"⟩, ⟨"assistant", "hi there"⟩]⟩)],
         [OutFrame.message "hi there" ⟨0, 8, "neutral"⟩]) := by
  constructor
  · intro store s client_id content response gw rt hs hok
    obtain ⟨ar, chunks, fault⟩ := gw
    rw [show (GatewayOracle.mk ar chunks fault).atomicResult = ar from rfl] at hok
    subst hok
    have e1 : handleFrame store client_id (InFrame.message content false)
        (GatewayOracle.mk (Except.ok response) chunks fault) rt
        = (appendMsg (appendMsg store client_id ⟨"user", content⟩) client_id
             ⟨"assistant", response⟩,
           [OutFrame.message response ⟨rt, response.length, estimate_sentiment response⟩]) :=
      rfl
    rw [e1, appendMsg_appendMsg store client_id s _ _ hs]
  · decide

/-- C2 witness: the general statement applied at the concrete scenario. -/
theorem nonstreaming_message_spec_witness :
    handleFrame [("abc", ChatSession.mk "abc" [])] "abc" (InFrame.message "hello" false)
        (GatewayOracle.mk (Except.ok "hi there") [] none) 0
      = ([("abc", ChatSession.mk "abc"
            [Message.mk "user" "hello", Message.mk "assistant" "hi there"])],
         [OutFrame.message "hi there" (Metadata.mk 0 8 "neutral")]) := by
  have h := nonstreaming_message_spec.1 [("abc", ChatSession.mk "abc" [])]
    (ChatSession.mk "abc" []) "abc" "hello" "hi there"
    (GatewayOracle.mk (Except.ok "hi there") [] none) 0 (by decide) rfl
  rw [h]
  decide

/-- C1: when the gateway stream completes without failure, the outbound
frames for the request are exactly the stream fragments in emission
order followed by one terminal `stream_complete` frame, the
concatenation of the stream frame contents equals the content of the
single assistant message appended to the session, and the terminal
frame's length and sentiment are computed over that full text. -/
theorem streaming_roundtrip (store : SessionStore) (s : ChatSession)
    (client_id content : String) (gw : GatewayOracle) (rt : Nat)
    (hs : dictLookup store client_id = some s) (hok : gw.streamFault = none) :
    ∃ full : String,
      (handleFrame store client_id (InFrame.message content true) gw rt).2
        = (stream_ai_response gw.streamChunks).map OutFrame.stream
          ++ [OutFrame.stream_complete ⟨rt, full.length, estimate_sentiment full⟩]
      ∧ String.join
          (streamContents (handleFrame store client_id (InFrame.message content true) gw rt).2)
        = full
      ∧ dictLookup (handleFrame store client_id (InFrame.message content true) gw rt).1 client_id
        = some ⟨s.id, s.messages ++ [⟨"user", content⟩, ⟨"assistant", full⟩]⟩ := by
  obtain ⟨ar, chunks, fault⟩ := gw
  rw [show (GatewayOracle.mk ar chunks fault).streamFault = fault from rfl] at hok
  subst hok
  refine ⟨(stream_ai_response chunks).foldl (fun acc c => acc ++ c) "", rfl, ?_, ?_⟩
  · have e2 : (handleFrame store client_id (InFrame.message content true)
        (GatewayOracle.mk ar chunks none) rt).2
        = (stream_ai_response chunks).map OutFrame.stream
          ++ [OutFrame.stream_complete
              ⟨rt, ((stream_ai_response chunks).foldl (fun acc c => acc ++ c) "").length,
               estimate_sentiment
                 ((stream_ai_response chunks).foldl (fun acc c => acc ++ c) "")⟩] := rfl
    rw [e2, streamContents_map_stream]
    simp [String.join, streamContents]
  · have e3 : (handleFrame store client_id (InFrame.message content true)
        (GatewayOracle.mk ar chunks none) rt).1
        = appendMsg (appendMsg store client_id ⟨"user", content⟩) client_id
            ⟨"assistant", (stream_ai_response chunks).foldl (fun acc c => acc ++ c) ""⟩ := rfl
    rw [e3, appendMsg_appendMsg store client_id s _ _ hs, dictLookup_set_self]

/-- C1 witness: two fragments "ab" and "cd" reassemble to "abcd". -/
theorem streaming_roundtrip_witness :
    ∃ full : String,
      (handleFrame [("c", ChatSession.mk "c" [])] "c" (InFrame.message "q" true)
          (GatewayOracle.mk (Except.ok "")
            [Chunk.mk [Choice.mk (Delta.mk (some "ab"))],
             Chunk.mk [Choice.mk (Delta.mk (some "cd"))]] none) 0).2
        = (stream_ai_response
            [Chunk.mk [Choice.mk (Delta.mk (some "ab"))],
             Chunk.mk [Choice.mk (Delta.mk (some "cd"))]]).map OutFrame.stream
          ++ [OutFrame.stream_complete ⟨0, full.length, estimate_sentiment full⟩]
      ∧ String.join
          (streamContents (handleFrame [("c", ChatSession.mk "c" [])] "c"
            (InFrame.message "q" true)
            (GatewayOracle.mk (Except.ok "")
              [Chunk.mk [Choice.mk (Delta.mk (some "ab"))],
               Chunk.mk [Choice.mk (Delta.mk (some "cd"))]] none) 0).2)
        = full
      ∧ dictLookup (handleFrame [("c", ChatSession.mk "c" [])] "c"
            (InFrame.message "q" true)
            (GatewayOracle.mk (Except.ok "")
              [Chunk.mk [Choice.mk (Delta.mk (some "ab"))],
               Chunk.mk [Choice.mk (Delta.mk (some "cd"))]] none) 0).1 "c"
        = some ⟨"c", [⟨"user", "q"⟩, ⟨"assistant", full⟩]⟩ := by
  have h := streaming_roundtrip [("c", ChatSession.mk "c" [])] (ChatSession.mk "c" [])
    "c" "q"
    (GatewayOracle.mk (Except.ok "")
      [Chunk.mk [Choice.mk (Delta.mk (some "ab"))],
       Chunk.mk [Choice.mk (Delta.mk (some "cd"))]] none) 0 (by decide) rfl
  simpa using h

/-- C10: when the gateway stream fails after emitting zero or more
fragments, the session keeps the user message appended at the start of
the request but gains no assistant message, and the outbound frames are
the already-sent fragments (not retracted) followed by one error
frame. -/
theorem stream_fault_no_assistant (store : SessionStore) (s : ChatSession)
    (client_id content e : String) (gw : GatewayOracle) (rt : Nat)
    (hs : dictLookup store client_id = some s) (hfault : gw.streamFault = some e) :
    dictLookup (handleFrame store client_id (InFrame.message content true) gw rt).1 client_id
      = some ⟨s.id, s.messages ++ [⟨"user", content⟩]⟩
    ∧ (handleFrame store client_id (InFrame.message content true) gw rt).2
      = (stream_ai_response gw.streamChunks).map OutFrame.stream
        ++ [OutFrame.error ("Error: " ++ e)] := by
  obtain ⟨ar, chunks, fault⟩ := gw
  rw [show (GatewayOracle.mk ar chunks fault).streamFault = fault from rfl] at hfault
  subst hfault
  constructor
  · have e1 : (handleFrame store client_id (InFrame.message content true)
        (GatewayOracle.mk ar chunks (some e)) rt).1
        = appendMsg store client_id ⟨"user", content⟩ := rfl
    rw [e1, appendMsg_eq store client_id s _ hs, dictLookup_set_self]
  · rfl

/-- C10 witness: one fragment "ab" already sent, then the stream fails. -/
theorem stream_fault_no_assistant_witness :
    dictLookup (handleFrame [("c", ChatSession.mk "c" [])] "c" (InFrame.message "q" true)
        (GatewayOracle.mk (Except.ok "")
          [Chunk.mk [Choice.mk (Delta.mk (some "ab"))]] (some "boom")) 0).1 "c"
      = some ⟨"c", [⟨"user", "q"⟩]⟩
    ∧ (handleFrame [("c", ChatSession.mk "c" [])] "c" (InFrame.message "q" true)
        (GatewayOracle.mk (Except.ok "")
          [Chunk.mk [Choice.mk (Delta.mk (some "ab"))]] (some "boom")) 0).2
      = (stream_ai_response [Chunk.mk [Choice.mk (Delta.mk (some "ab"))]]).map OutFrame.stream
        ++ [OutFrame.error ("Error: " ++ "boom")] := by
  have h := stream_fault_no_assistant [("c", ChatSession.mk "c" [])] (ChatSession.mk "c" [])
    "c" "q" "boom"
    (GatewayOracle.mk (Except.ok "")
      [Chunk.mk [Choice.mk (Delta.mk (some "ab"))]] (some "boom")) 0 (by decide) rfl
  simpa using h

/-- C3: a gateway failure in either branch is caught inside the loop:
the request's outbound frames contain exactly one error frame, with
content "Error: " followed by the failure message, and the loop goes on
to process the remaining events (the connection is not closed). -/
theorem gateway_failure_recovery (store : SessionStore) (s : ChatSession)
    (client_id content e : String) (streamFlag : Bool) (gw : GatewayOracle)
    (rt : Nat) (rest : List Event)
    (_hs : dictLookup store client_id = some s)
    (hfail : (streamFlag = false ∧ gw.atomicResult = Except.error e)
           ∨ (streamFlag = true ∧ gw.streamFault = some e)) :
    (handleFrame store client_id (InFrame.message content streamFlag) gw rt).2.filter
        isErrorFrame
      = [OutFrame.error ("Error: " ++ e)]
    ∧ runLoop store client_id
        (Event.recv (InFrame.message content streamFlag) gw rt :: rest)
      = ((runLoop (handleFrame store client_id (InFrame.message content streamFlag) gw rt).1
            client_id rest).1,
         (handleFrame store client_id (InFrame.message content streamFlag) gw rt).2
           ++ (runLoop (handleFrame store client_id (InFrame.message content streamFlag) gw rt).1
            client_id rest).2) := by
  refine ⟨?_, rfl⟩
  obtain ⟨ar, chunks, fault⟩ := gw
  rcases hfail with ⟨hb, ha⟩ | ⟨hb, hst⟩
  · subst hb
    rw [show (GatewayOracle.mk ar chunks fault).atomicResult = ar from rfl] at ha
    subst ha
    rfl
  · subst hb
    rw [show (GatewayOracle.mk ar chunks fault).streamFault = fault from rfl] at hst
    subst hst
    have e1 : (handleFrame store client_id (InFrame.message content true)
        (GatewayOracle.mk ar chunks (some e)) rt).2
        = (stream_ai_response chunks).map OutFrame.stream
          ++ [OutFrame.error ("Error: " ++ e)] := rfl
    rw [e1, filter_isErrorFrame_map_stream]
    rfl

/-- C3 witness: a failing atomic call yields exactly one error frame
and a subsequent successful request is still processed by the loop. -/
theorem gateway_failure_recovery_witness :
    (handleFrame [("a", ChatSession.mk "a" [])] "a" (InFrame.message "hi" false)
        (GatewayOracle.mk (Except.error "boom") [] none) 0).2.filter isErrorFrame
      = [OutFrame.error ("Error: " ++ "boom")] :=
  (gateway_failure_recovery [("a", ChatSession.mk "a" [])] (ChatSession.mk "a" [])
    "a" "hi" "boom" false (GatewayOracle.mk (Except.error "boom") [] none) 0 []
    (by decide) (Or.inl ⟨rfl, rfl⟩)).1

/-- C4 counterexample: the guard of `stream_ai_response` is
`is not None`, not non-emptiness, so a provider chunk whose first
choice carries the content `""` is yielded as an empty fragment. -/
theorem stream_fragment_empty_counterexample :
    stream_ai_response [Chunk.mk [Choice.mk (Delta.mk (some ""))]] = [""]
    ∧ ∃ s ∈ stream_ai_response [Chunk.mk [Choice.mk (Delta.mk (some ""))]],
        s.length = 0 := by
  exact ⟨rfl, "", by decide, rfl⟩

/-- C4 (amended): every fragment yielded by `stream_ai_response` is the
first choice's delta content of some provider chunk (present, i.e. not
None, but possibly empty), the yield order is the provider's emission
order (the output over a concatenation of chunk sequences is the
concatenation of the outputs), and a chunk yields a fragment exactly
when its choice list is non-empty and the first delta content is
present. -/
theorem stream_fragments_amended (chunks chunks2 : List Chunk) :
    (∀ s ∈ stream_ai_response chunks, ∃ c ∈ chunks, chunkFragment c = some s)
    ∧ stream_ai_response (chunks ++ chunks2)
      = stream_ai_response chunks ++ stream_ai_response chunks2
    ∧ ∀ (c : Chunk) (s : String),
        chunkFragment c = some s ↔
          ∃ ch : Choice, ∃ rest : List Choice,
            c.choices = ch :: rest ∧ ch.delta.content = some s := by
  refine ⟨?_, ?_, ?_⟩
  · intro s hsmem
    exact (List.mem_filterMap.mp hsmem).imp fun c hc => ⟨hc.1, hc.2⟩
  · exact List.filterMap_append chunks chunks2 chunkFragment
  · intro c s
    obtain ⟨choices⟩ := c
    cases choices with
    | nil => simp [chunkFragment]
    | cons ch rest => simp [chunkFragment]

/-- C4 witness: a present fragment "hi" is traced back to its chunk. -/
theorem stream_fragments_amended_witness :
    ∃ c ∈ [Chunk.mk [Choice.mk (Delta.mk (some "hi"))]], chunkFragment c = some "hi" :=
  (stream_fragments_amended [Chunk.mk [Choice.mk (Delta.mk (some "hi"))]] []).1
    "hi" (by decide)

/-- C5 counterexample: `broadcast` is a bare `for` loop over the
registered connections; when the send to "a" raises, the loop aborts
and "b", whose send would succeed, receives nothing. -/
theorem broadcast_abort_counterexample :
    broadcast [Conn.mk "a" false, Conn.mk "b" true] "hi" = ([], some "a")
    ∧ ("b", "hi") ∉ (broadcast [Conn.mk "a" false, Conn.mk "b" true] "hi").1 := by
  exact ⟨rfl, by decide⟩

/-- C5 (amended): `broadcast` delivers sequentially and aborts at the
first connection whose send fails: the connections before the first
failure receive the frame in registration order, and the failing
connection and every connection after it receive nothing. -/
theorem broadcast_abort_amended (pre : List Conn) (c : Conn) (post : List Conn)
    (msg : String) (hpre : ∀ d ∈ pre, d.sendOk = true) (hc : c.sendOk = false) :
    broadcast (pre ++ c :: post) msg = (pre.map (fun d => (d.id, msg)), some c.id) := by
  induction pre with
  | nil => simp [broadcast, hc]
  | cons a t ih =>
    have ha : a.sendOk = true := hpre a (List.mem_cons_self a t)
    have ht : ∀ d ∈ t, d.sendOk = true := fun d hd => hpre d (List.mem_cons_of_mem a hd)
    simp [broadcast, ha, ih ht]

/-- C5 witness: "x" is delivered, the failing "y" aborts the loop, and
"z" receives nothing. -/
theorem broadcast_abort_amended_witness :
    broadcast [Conn.mk "x" true, Conn.mk "y" false, Conn.mk "z" true] "m"
      = ([("x", "m")], some "y") :=
  broadcast_abort_amended [Conn.mk "x" true] (Conn.mk "y" false) [Conn.mk "z" true]
    "m" (by decide) rfl

end Endpoints
